import Mathlib

/-!
Shallow embedding of the laniprime content-automation core:
the platform spec table, the content/analysis validators, the lenient
model-response parser, the content-generation pipeline, the website
scraper resource discipline, and the job execution router
(queue with direct-execution fallback).

JavaScript conventions are modelled explicitly: JSON values are a small
inductive type (numbers restricted to integers), thrown exceptions are an
explicit error sum, string/array truthiness is spelled out, and external
collaborators (the model, the image service, the broker) are environment
parameters recording the outcome of each call.
-/

/-- JSON values as produced by the JavaScript JSON.parse.
Numbers are modelled as integers (the pipelines never rely on
fractional model output). -/
inductive Json where
  | null
  | bool (b : Bool)
  | num (n : Int)
  | str (s : String)
  | arr (items : List Json)
  | obj (fields : List (String × Json))
deriving Repr

/-- Characters surviving a JavaScript-style trim: leading and trailing
whitespace removed. -/
def trimChars (cs : List Char) : List Char :=
  ((cs.dropWhile Char.isWhitespace).reverse.dropWhile Char.isWhitespace).reverse

/-- JavaScript String.prototype.trim, implemented over the character list
so that it evaluates inside the kernel. -/
def jsTrim (s : String) : String := String.mk (trimChars s.data)

/-- Prefix test over character lists. -/
def strHasPrefixChars : List Char → List Char → Bool
  | [], _ => true
  | _ :: _, [] => false
  | p :: ps, c :: cs => p = c && strHasPrefixChars ps cs

/-- JavaScript String.prototype.startsWith. -/
def jsStartsWith (s pre : String) : Bool := strHasPrefixChars pre.data s.data

/-- One row of the static platform spec table. -/
structure PlatformSpec where
  maxLength : Nat
  optimalLength : Nat
  hashtagLimit : Nat
  bestPractices : String
deriving Repr, DecidableEq

/-- The PLATFORM_SPECS table from content-generation.ts: a total lookup
from platform key to the per-platform limits; unknown keys give none
(the JavaScript lookup yields undefined). -/
def PLATFORM_SPECS : String → Option PlatformSpec
  | "instagram" => some ⟨2200, 150, 30,
      "Use engaging captions, include call-to-action, leverage hashtags strategically"⟩
  | "facebook" => some ⟨63206, 250, 10,
      "Focus on storytelling, ask questions to drive engagement, use emojis sparingly"⟩
  | "twitter" => some ⟨280, 240, 3,
      "Be concise, use threads for longer content, include relevant hashtags"⟩
  | "linkedin" => some ⟨3000, 150, 5,
      "Professional tone, provide value, share insights, use line breaks for readability"⟩
  | "tiktok" => some ⟨2200, 100, 10,
      "Short, catchy, trend-aware, use popular sounds and challenges"⟩
  | _ => none

/-- The GeneratedContent interface.  `hashtags` keeps the raw parsed JSON
elements, as the JavaScript object does at runtime. -/
structure GeneratedContent where
  body : String
  hashtags : Option (List Json) := none
  imageUrl : Option String := none
  imagePrompt : Option String := none
  platform : String
  characterCount : Nat
  estimatedReadTime : Option Nat := none
deriving Repr

/-- Result shape shared by both validators. -/
structure ValidationResult where
  isValid : Bool
  issues : List String
deriving Repr, DecidableEq

/-- validateContent from content-generation.ts: unknown platform is an
issue (early return), then length, hashtag count and empty-body checks
append issues in source order. -/
def validateContent (content : GeneratedContent) : ValidationResult :=
  match PLATFORM_SPECS content.platform with
  | none => { isValid := false, issues := ["Unknown platform: " ++ content.platform] }
  | some specs =>
    let issues : List String :=
      (if specs.maxLength < content.characterCount then
        ["Content exceeds " ++ content.platform ++ " limit: " ++
          toString content.characterCount ++ "/" ++ toString specs.maxLength ++ " characters"]
      else []) ++
      (match content.hashtags with
        | some hs =>
          if specs.hashtagLimit < hs.length then
            ["Too many hashtags: " ++ toString hs.length ++ "/" ++ toString specs.hashtagLimit]
          else []
        | none => []) ++
      (if content.body = "" ∨ jsTrim content.body = "" then ["Content body is empty"] else [])
    { isValid := issues.isEmpty, issues := issues }

/-- brandVoice field of NicheAnalysisResult. -/
structure BrandVoice where
  tone : String
  keywords : List String
  writingStyle : String
deriving Repr, DecidableEq

/-- targetAudience field of NicheAnalysisResult. -/
structure TargetAudience where
  demographics : String
  painPoints : List String
  interests : List String
deriving Repr, DecidableEq

/-- contentStrategy field of NicheAnalysisResult. -/
structure ContentStrategy where
  topics : List String
  frequency : Nat
  bestTimes : List String
  platforms : List String
deriving Repr, DecidableEq

/-- autopilotConfig field of NicheAnalysisResult. -/
structure AutopilotConfig where
  enabled : Bool
  contentTypes : List String
  postingSchedule : String
deriving Repr, DecidableEq

/-- The NicheAnalysisResult interface from the niche-intelligence service. -/
structure NicheAnalysisResult where
  industry : String
  brandVoice : BrandVoice
  targetAudience : TargetAudience
  competitors : List String
  keywords : List String
  contentStrategy : ContentStrategy
  autopilotConfig : AutopilotConfig
deriving Repr, DecidableEq

/-- validateAnalysis from the niche-intelligence service: six checks, each
appending one human-readable issue; isValid is emptiness of the issue
list.  An empty string is falsy in JavaScript, hence the explicit
disjuncts mirroring the bang-tests. -/
def validateAnalysis (analysis : NicheAnalysisResult) : ValidationResult :=
  let issues : List String :=
    (if analysis.industry = "" ∨ analysis.industry.length < 3 then
      ["Industry classification is missing or too short"] else []) ++
    (if analysis.brandVoice.tone = "" then ["Brand voice tone is missing"] else []) ++
    (if analysis.brandVoice.keywords.length < 3 then ["Insufficient brand keywords"] else []) ++
    (if analysis.targetAudience.demographics = "" then
      ["Target audience demographics missing"] else []) ++
    (if analysis.contentStrategy.topics.length < 3 then ["Insufficient content topics"] else []) ++
    (if analysis.contentStrategy.platforms.length < 1 then ["No platforms recommended"] else [])
  { isValid := issues.isEmpty, issues := issues }

/-- Whitespace accepted between JSON tokens. -/
def isJsonWs (c : Char) : Bool :=
  c = ' ' || c = '\t' || c = '\n' || c = '\r'

/-- Skip inter-token whitespace. -/
def skipWs (cs : List Char) : List Char := cs.dropWhile isJsonWs

/-- Value of a hexadecimal digit, for unicode escapes. -/
def hexVal (c : Char) : Option Nat :=
  if '0' ≤ c ∧ c ≤ '9' then some (c.toNat - '0'.toNat)
  else if 'a' ≤ c ∧ c ≤ 'f' then some (c.toNat - 'a'.toNat + 10)
  else if 'A' ≤ c ∧ c ≤ 'F' then some (c.toNat - 'A'.toNat + 10)
  else none

/-- Single-character JSON string escapes. -/
def escChar (c : Char) : Option Char :=
  if c = '"' then some '"'
  else if c = '\\' then some '\\'
  else if c = '/' then some '/'
  else if c = 'n' then some '\n'
  else if c = 't' then some '\t'
  else if c = 'r' then some '\r'
  else if c = 'b' then some (Char.ofNat 8)
  else if c = 'f' then some (Char.ofNat 12)
  else none

/-- Scan the body of a JSON string literal after its opening quote,
returning the decoded characters and the remaining input.  Raw control
characters are rejected, as JSON.parse rejects them. -/
def takeStringChars : List Char → Option (List Char × List Char)
  | [] => none
  | '"' :: rest => some ([], rest)
  | '\\' :: 'u' :: h1 :: h2 :: h3 :: h4 :: rest => do
      let a ← hexVal h1
      let b ← hexVal h2
      let c ← hexVal h3
      let d ← hexVal h4
      let (chars, r) ← takeStringChars rest
      some (Char.ofNat (((a * 16 + b) * 16 + c) * 16 + d) :: chars, r)
  | '\\' :: e :: rest => do
      let ec ← escChar e
      let (chars, r) ← takeStringChars rest
      some (ec :: chars, r)
  | c :: rest =>
      if c.toNat < 32 then none
      else do
        let (chars, r) ← takeStringChars rest
        some (c :: chars, r)

/-- Parse a JSON number.  Numbers are modelled as integers: a fractional
part or exponent is rejected rather than approximated, since the
pipelines never depend on non-integer model output. -/
def parseNumber (cs : List Char) : Option (Json × List Char) :=
  let neg := match cs with | '-' :: _ => true | _ => false
  let cs1 := match cs with | '-' :: rest => rest | _ => cs
  let digits := cs1.takeWhile Char.isDigit
  let rest := cs1.dropWhile Char.isDigit
  if digits.isEmpty then none
  else if 1 < digits.length ∧ digits.head? = some '0' then none
  else match rest with
    | '.' :: _ => none
    | 'e' :: _ => none
    | 'E' :: _ => none
    | _ =>
      let n : Nat := digits.foldl (fun acc c => acc * 10 + (c.toNat - 48)) 0
      some (.num (if neg then -(n : Int) else (n : Int)), rest)

mutual

/-- Recursive-descent JSON value parser with a fuel bound (any fuel at
least the input length succeeds whenever JSON.parse would). -/
def parseVal : Nat → List Char → Option (Json × List Char)
  | 0, _ => none
  | fuel + 1, cs =>
    match skipWs cs with
    | 'n' :: 'u' :: 'l' :: 'l' :: rest => some (.null, rest)
    | 't' :: 'r' :: 'u' :: 'e' :: rest => some (.bool true, rest)
    | 'f' :: 'a' :: 'l' :: 's' :: 'e' :: rest => some (.bool false, rest)
    | '"' :: rest => do
        let (chars, r) ← takeStringChars rest
        some (.str (String.mk chars), r)
    | '{' :: rest =>
        (match skipWs rest with
        | '}' :: r2 => some (.obj [], r2)
        | other => do
            let (fields, r2) ← parseMembers fuel other
            some (.obj fields, r2))
    | '[' :: rest =>
        (match skipWs rest with
        | ']' :: r2 => some (.arr [], r2)
        | other => do
            let (items, r2) ← parseItems fuel other
            some (.arr items, r2))
    | other => parseNumber other

/-- Parse the members of a non-empty JSON object, positioned at a key. -/
def parseMembers : Nat → List Char → Option (List (String × Json) × List Char)
  | 0, _ => none
  | fuel + 1, cs =>
    match cs with
    | '"' :: rest => do
        let (chars, r1) ← takeStringChars rest
        match skipWs r1 with
        | ':' :: r2 => do
            let (v, r3) ← parseVal fuel r2
            (match skipWs r3 with
            | ',' :: r4 => do
                let (fields, r5) ← parseMembers fuel (skipWs r4)
                some ((String.mk chars, v) :: fields, r5)
            | '}' :: r4 => some ([(String.mk chars, v)], r4)
            | _ => none)
        | _ => none
    | _ => none

/-- Parse the items of a non-empty JSON array. -/
def parseItems : Nat → List Char → Option (List Json × List Char)
  | 0, _ => none
  | fuel + 1, cs => do
      let (v, r1) ← parseVal fuel cs
      match skipWs r1 with
      | ',' :: r2 => do
          let (items, r3) ← parseItems fuel (skipWs r2)
          some (v :: items, r3)
      | ']' :: r2 => some ([v], r2)
      | _ => none

end

/-- JSON.parse: a whole-string parse that rejects trailing garbage. -/
def parseJson (s : String) : Option Json :=
  match parseVal (s.data.length + 1) s.data with
  | some (v, rest) => if (skipWs rest).isEmpty then some v else none
  | none => none

/-- The greedy brace-span match used as parse attempt 2: the span from the
first opening brace to the last closing brace of the text, when the
latter lies strictly after the former (the regex with a greedy any-char
star between the two braces). -/
def extractSpan (cs : List Char) : Option (List Char) :=
  let tail := cs.dropWhile (fun c => c != '{')
  let span := (tail.reverse.dropWhile (fun c => c != '}')).reverse
  if 2 ≤ span.length then some span else none

/-- The two-attempt model-response parsing step shared by generateContent
and analyzeNiche: parse the raw text as JSON; on failure, parse the
greedy brace span; with no further fallback. -/
def parseModelResponse (text : String) : Option Json :=
  match parseJson text with
  | some v => some v
  | none =>
    match extractSpan text.data with
    | some span => parseJson (String.mk span)
    | none => none

/-- Failures that escape a service call.  typeError models a JavaScript
TypeError from dereferencing undefined or calling a missing method;
thrown models an explicitly thrown Error; configurationError is the
distinguished configuration-failure class named by the spec taxonomy
(the source never constructs it, which is what claim C5 is about). -/
inductive JsError where
  | typeError (msg : String)
  | thrown (msg : String)
  | configurationError (msg : String)
deriving Repr, DecidableEq

/-- Message carried by an error. -/
def JsError.message : JsError → String
  | .typeError m => m
  | .thrown m => m
  | .configurationError m => m

/-- Whether a failure is the distinguished configuration error. -/
def JsError.isConfigurationError : JsError → Bool
  | .configurationError _ => true
  | _ => false

/-- Outcome of one model invocation: the call throws, or returns message
content (an empty reply models both null content and the empty string). -/
inductive LlmOutcome where
  | throws (msg : String)
  | replies (content : String)
deriving Repr, DecidableEq

/-- JavaScript truthiness of a JSON value. -/
def jsTruthy : Json → Bool
  | .null => false
  | .bool b => b
  | .num n => n != 0
  | .str s => s != ""
  | .arr _ => true
  | .obj _ => true

/-- Field lookup in a parsed object literal: a later duplicate binding
wins, as in JSON.parse. -/
def lookupField : List (String × Json) → String → Option Json
  | [], _ => none
  | (k, v) :: rest, key =>
      match lookupField rest key with
      | some w => some w
      | none => if k = key then some v else none

/-- Property read on a parsed JSON value: reading on null throws a
TypeError, reading a missing key on an object (or any property on a
non-object primitive) yields undefined. -/
def jsGetField : Json → String → Except JsError (Option Json)
  | .null, key => .error (.typeError ("Cannot read properties of null: " ++ key))
  | .obj fields, key => .ok (lookupField fields key)
  | _, _ => .ok none

mutual

/-- JavaScript string conversion of a JSON value as performed by
Array.prototype.join on its elements. -/
def jsToDisplayString : Json → String
  | .null => ""
  | .bool true => "true"
  | .bool false => "false"
  | .num n => toString n
  | .str s => s
  | .arr xs => jsListJoin "," xs
  | .obj _ => "[object Object]"

/-- Array.prototype.join with the given separator. -/
def jsListJoin : String → List Json → String
  | _, [] => ""
  | _, [x] => jsToDisplayString x
  | sep, x :: y :: xs => jsToDisplayString x ++ sep ++ jsListJoin sep (y :: xs)

end

/-- The defaulted hashtags value: undefined or falsy gives the empty
array; a truthy non-array later fails at the join call. -/
def resolveArrField : Option Json → Except JsError (List Json)
  | none => .ok []
  | some j =>
    if jsTruthy j then
      match j with
      | .arr xs => .ok xs
      | _ => .error (.typeError "hashtags.join is not a function")
    else .ok []

/-- The defaulted body value: undefined or falsy gives the empty string;
a truthy non-string later fails at the split call. -/
def resolveStrField : Option Json → Except JsError String
  | none => .ok ""
  | some j =>
    if jsTruthy j then
      match j with
      | .str s => .ok s
      | _ => .error (.typeError "body.split is not a function")
    else .ok ""

/-- nicheContext of a ContentGenerationRequest. -/
structure NicheContext where
  industry : Option String := none
  brandVoice : Option Json := none
  keywords : Option (List String) := none
  targetAudience : Option Json := none
deriving Repr

/-- The ContentGenerationRequest interface; platform is kept as a string
so that unknown platform keys are expressible, as they are at runtime. -/
structure ContentGenerationRequest where
  topic : String
  platform : String
  tone : Option String := none
  includeImage : Option Bool := none
  imageStyle : Option String := none
  nicheContext : Option NicheContext := none
deriving Repr

/-- Assembly of the GeneratedContent object from the parsed model reply:
body and hashtags default when missing or falsy, the character count is
body length plus the space-joined hashtag length, and the read time is
the word count divided by 200, rounded up.  Evaluation order follows the
source: field reads, then the hashtag join, then the body split. -/
def buildGenerated (platform : String) (_specs : PlatformSpec) (parsed : Json) :
    Except JsError GeneratedContent := do
  let bodyField ← jsGetField parsed "body"
  let hashtagsField ← jsGetField parsed "hashtags"
  let hashtags ← resolveArrField hashtagsField
  let body ← resolveStrField bodyField
  let totalLength := body.length + (jsListJoin " " hashtags).length
  pure { body := body, hashtags := some hashtags, imageUrl := none,
         platform := platform, characterCount := totalLength,
         estimatedReadTime := some ((body.data.count ' ' + 1 + 199) / 200) }

/-- generateContent from content-generation.ts.  The platform spec lookup
and prompt construction happen before the try block: an unknown platform
key dereferences undefined and a raw TypeError escapes unwrapped.  All
failures inside the try block are rethrown wrapped as generation
failures. -/
def generateContent (request : ContentGenerationRequest) (llm : LlmOutcome) :
    Except JsError GeneratedContent :=
  match PLATFORM_SPECS request.platform with
  | none => .error (.typeError "Cannot read properties of undefined")
  | some specs =>
    match llm with
    | .throws msg => .error (.thrown ("Content generation failed: " ++ msg))
    | .replies content =>
      if content = "" then
        .error (.thrown "Content generation failed: Empty response from Claude")
      else
        match parseModelResponse content with
        | none =>
            .error (.thrown "Content generation failed: Could not parse Claude response as JSON")
        | some parsed =>
          match buildGenerated request.platform specs parsed with
          | .ok g => .ok g
          | .error e => .error (.thrown ("Content generation failed: " ++ e.message))

/-- Environment of the image collaborator: whether the OpenAI key is
configured, and the outcome of the DALL-E call (a throw, or a response
whose first image may or may not carry a url). -/
structure ImageEnv where
  openaiKeyConfigured : Bool
  outcome : Except String (Option String)
deriving Repr

/-- generateImage: null when the key is unconfigured, null when the call
throws (image generation is optional), null when the response has no
url, the url otherwise. -/
def generateImage (_prompt : String) (_style : String) (env : ImageEnv) : Option String :=
  if !env.openaiKeyConfigured then none
  else match env.outcome with
    | .error _ => none
    | .ok none => none
    | .ok (some url) => if url = "" then none else some url

/-- The image prompt built by generateContentWithImage: topic, with the
style appended when that string is truthy. -/
def contentImagePrompt (request : ContentGenerationRequest) : String :=
  match request.imageStyle with
  | some style => if style = "" then request.topic else request.topic ++ ". " ++ style
  | none => request.topic

/-- generateContentWithImage: generate text content, then best-effort
attach an image when includeImage is truthy. -/
def generateContentWithImage (request : ContentGenerationRequest) (llm : LlmOutcome)
    (img : ImageEnv) : Except JsError GeneratedContent := do
  let content ← generateContent request llm
  if request.includeImage.getD false then
    let imagePrompt := contentImagePrompt request
    let imageUrl := generateImage imagePrompt (request.imageStyle.getD "natural") img
    pure { content with imageUrl := imageUrl, imagePrompt := some imagePrompt }
  else
    pure content

/-- Return shape of job submission. -/
structure ContentJobSubmission where
  jobId : String
  result : Option GeneratedContent := none
deriving Repr

/-- Environment of the job router: whether a Redis host is configured,
whether the BullMQ import succeeded, the clock, and the outcome of the
enqueue call (a throw, or a job whose id may be missing). -/
structure JobQueueEnv where
  redisAvailable : Bool
  queueLoaded : Bool
  now : Nat
  enqueue : Except String (Option String)
deriving Repr

/-- Direct execution fallback for content generation. -/
def executeContentGeneration (data : ContentGenerationRequest) (llm : LlmOutcome)
    (img : ImageEnv) : Except JsError GeneratedContent :=
  generateContentWithImage data llm img

/-- addContentGenerationJob from the job queue module: with no broker the
pipeline runs synchronously and the submission carries a locally tagged
jobId plus the immediate result; with a broker the job is enqueued (a
missing id falls back to a clock-tagged one); a throwing enqueue falls
back to direct execution. -/
def addContentGenerationJob (data : ContentGenerationRequest) (env : JobQueueEnv)
    (llm : LlmOutcome) (img : ImageEnv) : Except JsError ContentJobSubmission :=
  if !env.redisAvailable || !env.queueLoaded then
    match executeContentGeneration data llm img with
    | .ok result => .ok { jobId := "direct-" ++ toString env.now, result := some result }
    | .error e => .error e
  else
    match env.enqueue with
    | .ok jid =>
        .ok { jobId :=
                match jid with
                | some j => if j = "" then "job-" ++ toString env.now else j
                | none => "job-" ++ toString env.now,
              result := none }
    | .error _ =>
        match executeContentGeneration data llm img with
        | .ok result => .ok { jobId := "direct-" ++ toString env.now, result := some result }
        | .error e => .error e

/-- A broker-side job record: its state string, return value and failure
reason, as reported by the broker. -/
structure BrokerJob where
  state : String
  returnvalue : Option Json := none
  failedReason : Option String := none
deriving Repr

/-- Return shape of a status lookup. -/
structure JobStatus where
  status : String
  result : Option Json := none
  error : Option String := none
deriving Repr

/-- Environment of a status lookup: broker configuration flags and the
outcome of the job fetch (a throw from queue construction or fetching,
a missing job, or the job record). -/
structure StatusEnv where
  redisAvailable : Bool
  queueLoaded : Bool
  getJob : Except String (Option BrokerJob)
deriving Repr

/-- getJobStatus from the job queue module: locally tagged ids resolve to
completed without touching the broker; an unconfigured broker, a failed
broker call, and a missing job all map to the unknown status with an
error message; otherwise the broker-reported state is passed through
unchecked (the source casts it to any). -/
def getJobStatus (_queueName : String) (jobId : String) (env : StatusEnv) : JobStatus :=
  if jsStartsWith jobId "direct-" then
    { status := "completed",
      result := some (Json.obj [("message", Json.str "Job executed directly (no Redis queue)")]) }
  else if !env.redisAvailable || !env.queueLoaded then
    { status := "unknown", error := some "Redis not available" }
  else
    match env.getJob with
    | .error msg => { status := "unknown", error := some msg }
    | .ok none => { status := "unknown", error := some "Job not found" }
    | .ok (some job) =>
        { status := job.state, result := job.returnvalue, error := job.failedReason }

/-- The awaited operations of scrapeWebsite that run inside the try block
after the browser is launched, in source order. -/
inductive ScrapeStep where
  | newPage | setUserAgent | goto | content | title | metaEval | textEval | linksEval
deriving Repr, DecidableEq

/-- Environment of one scrape run: whether the launch throws, which later
step (if any) throws first, and the page data the browser reports when
the steps succeed. -/
structure ScrapeEnv where
  launchFails : Option String
  stepFails : ScrapeStep → Option String
  pageHtml : String
  pageTitle : String
  pageMeta : List (String × String)
  pageText : String
  pageLinks : List String

/-- The one resource requiring acquire/release discipline. -/
structure BrowserState where
  browserOpen : Bool
deriving Repr, DecidableEq

/-- browser.close(): the handle is released. -/
def closeBrowser (_st : BrowserState) : BrowserState := { browserOpen := false }

/-- The ScrapedSite shape returned on success. -/
structure ScrapedSite where
  html : String
  text : String
  title : String
  meta : List (String × String)
  links : List String
deriving Repr

/-- Record-style assignment into the meta map: overwrite an existing key,
append a new one. -/
def metaInsert (m : List (String × String)) (k v : String) : List (String × String) :=
  if m.any (fun p => p.1 = k) then m.map (fun p => if p.1 = k then (k, v) else p)
  else m ++ [(k, v)]

/-- The meta-tag fold: tags with an empty name or content are skipped. -/
def buildMeta (tags : List (String × String)) : List (String × String) :=
  tags.foldl (fun acc t => if t.1 ≠ "" ∧ t.2 ≠ "" then metaInsert acc t.1 t.2 else acc) []

/-- Set-based deduplication keeping first occurrences, as the spread of a
JavaScript Set does. -/
def dedupKeepFirst : List String → List String → List String
  | [], _ => []
  | x :: xs, seen =>
      if x ∈ seen then dedupKeepFirst xs seen else x :: dedupKeepFirst xs (x :: seen)

/-- Error wrapper applied by the scrape catch block. -/
def scrapeFailMsg (m : String) : String := "Failed to scrape website: " ++ m

/-- The result object built after the browser is closed: text capped at
50000 characters, links filtered to truthy http ones, deduplicated and
capped at 50. -/
def buildScrapedSite (env : ScrapeEnv) : ScrapedSite :=
  { html := env.pageHtml,
    text := String.mk (env.pageText.data.take 50000),
    title := env.pageTitle,
    meta := buildMeta env.pageMeta,
    links := (dedupKeepFirst (env.pageLinks.filter
        (fun l => (l != "") && jsStartsWith l "http")) []).take 50 }

/-- Run the in-try awaited steps in order: the first throwing step routes
to the catch block, which closes the open browser and rethrows wrapped;
when all succeed the browser is closed and the site returned. -/
def runScrapeSteps (env : ScrapeEnv) (st : BrowserState) :
    List ScrapeStep → Except String ScrapedSite × BrowserState
  | [] => (.ok (buildScrapedSite env), closeBrowser st)
  | s :: rest =>
      match env.stepFails s with
      | some m => (.error (scrapeFailMsg m), closeBrowser st)
      | none => runScrapeSteps env st rest

/-- scrapeWebsite from the niche-intelligence service, with the final
browser state made explicit.  A throwing launch leaves no browser to
close; any later throw is caught and the browser closed before the
wrapped error propagates; success closes the browser before returning. -/
def scrapeWebsite (_url : String) (env : ScrapeEnv) :
    Except String ScrapedSite × BrowserState :=
  match env.launchFails with
  | some m => (.error (scrapeFailMsg m), { browserOpen := false })
  | none =>
      runScrapeSteps env { browserOpen := true }
        [ScrapeStep.newPage, .setUserAgent, .goto, .content,
         .title, .metaEval, .textEval, .linksEval]

/-! Helper lemmas (shared across claim theorems). -/

theorem strDataAppend (a b : String) : (a ++ b).data = a.data ++ b.data := by
  cases a; cases b; rfl

theorem strMkData (s : String) : String.mk s.data = s := by
  cases s; rfl

theorem strHasPrefixChars_append (p t : List Char) :
    strHasPrefixChars p (p ++ t) = true := by
  induction p with
  | nil => rfl
  | cons a r ih => simp [strHasPrefixChars, ih]

theorem jsStartsWith_append (p t : String) : jsStartsWith (p ++ t) p = true := by
  unfold jsStartsWith
  rw [strDataAppend]
  exact strHasPrefixChars_append p.data t.data

/-- Claim C2, amended: validateAnalysis marks a result valid exactly when
the six checked conditions hold: industry at least 3 characters, a
non-empty brand-voice tone, at least 3 brand keywords, non-empty
audience demographics, at least 3 content topics and at least one
recommended platform.  The remaining list fields (pain points,
interests, competitors, keywords, best times, autopilot content types)
are not consulted. -/
theorem validateAnalysis_isValid_iff (a : NicheAnalysisResult) :
    (validateAnalysis a).isValid = true ↔
      (3 ≤ a.industry.length ∧ a.brandVoice.tone ≠ "" ∧
       3 ≤ a.brandVoice.keywords.length ∧ a.targetAudience.demographics ≠ "" ∧
       3 ≤ a.contentStrategy.topics.length ∧
       1 ≤ a.contentStrategy.platforms.length) := by
  simp only [validateAnalysis, List.isEmpty_iff, List.append_eq_nil, ite_eq_right_iff,
    List.cons_ne_nil, imp_false]
  constructor
  · intro h
    obtain ⟨⟨⟨⟨⟨h1, h2⟩, h3⟩, h4⟩, h5⟩, h6⟩ := h
    push_neg at h1
    exact ⟨by omega, h2, by omega, h4, by omega, by omega⟩
  · rintro ⟨h1, h2, h3, h4, h5, h6⟩
    refine ⟨⟨⟨⟨⟨?_, h2⟩, by omega⟩, h4⟩, by omega⟩, by omega⟩
    rintro (h | h)
    · rw [h] at h1
      exact absurd h1 (by decide)
    · omega

/-- Claim C2, witness: a fully satisfying analysis is accepted. -/
theorem validateAnalysis_isValid_iff_witness :
    (validateAnalysis
      { industry := "HVAC Services"
        brandVoice := { tone := "Professional", keywords := ["reliable", "certified", "expert"],
                        writingStyle := "Direct" }
        targetAudience := { demographics := "Homeowners",
                            painPoints := ["bills", "repairs", "comfort"],
                            interests := ["home", "energy", "savings"] }
        competitors := ["a.com", "b.com", "c.com"]
        keywords := ["hvac", "repair", "install"]
        contentStrategy := { topics := ["tips", "savings", "prep"], frequency := 3,
                             bestTimes := ["9", "12", "17"], platforms := ["facebook"] }
        autopilotConfig := { enabled := true, contentTypes := ["tips"],
                             postingSchedule := "MWF" } }).isValid = true :=
  (validateAnalysis_isValid_iff _).mpr (by decide)

/-- Claim C2, counterexample: an analysis whose list fields all have at
least 3 entries and whose string fields are all non-empty is still
rejected, because the industry string has fewer than 3 characters (and,
conversely, the platform list is only required to have one entry, not
3, so the claimed equivalence also fails in the other direction). -/
theorem validateAnalysis_counterexample :
    (let a : NicheAnalysisResult :=
      { industry := "ab"
        brandVoice := { tone := "Professional", keywords := ["k1", "k2", "k3"],
                        writingStyle := "Direct" }
        targetAudience := { demographics := "Homeowners",
                            painPoints := ["p1", "p2", "p3"],
                            interests := ["i1", "i2", "i3"] }
        competitors := ["c1", "c2", "c3"]
        keywords := ["w1", "w2", "w3"]
        contentStrategy := { topics := ["t1", "t2", "t3"], frequency := 3,
                             bestTimes := ["9", "12", "17"],
                             platforms := ["facebook", "instagram", "linkedin"] }
        autopilotConfig := { enabled := true, contentTypes := ["a1", "a2", "a3"],
                             postingSchedule := "MWF" } }
     (3 ≤ a.brandVoice.keywords.length ∧
      3 ≤ a.targetAudience.painPoints.length ∧
      3 ≤ a.targetAudience.interests.length ∧
      3 ≤ a.competitors.length ∧
      3 ≤ a.keywords.length ∧
      3 ≤ a.contentStrategy.topics.length ∧
      3 ≤ a.contentStrategy.bestTimes.length ∧
      3 ≤ a.contentStrategy.platforms.length ∧
      3 ≤ a.autopilotConfig.contentTypes.length ∧
      a.industry ≠ "" ∧ a.brandVoice.tone ≠ "" ∧ a.brandVoice.writingStyle ≠ "" ∧
      a.targetAudience.demographics ≠ "" ∧ a.autopilotConfig.postingSchedule ≠ "") ∧
     (validateAnalysis a).isValid = false) := by
  decide

/-- Claim C3, amended: for every platform in the spec table, content
whose character count is within the platform maximum, whose hashtag
count (when hashtags are present) is within the platform limit, and
whose body does not trim to the empty string, is accepted with no
issues.  The body condition is required by the source and missing from
the claim. -/
theorem validateContent_ok (c : GeneratedContent) (s : PlatformSpec)
    (hspec : PLATFORM_SPECS c.platform = some s)
    (hlen : c.characterCount ≤ s.maxLength)
    (hhash : ∀ hs, c.hashtags = some hs → hs.length ≤ s.hashtagLimit)
    (hbody : jsTrim c.body ≠ "") :
    validateContent c = { isValid := true, issues := [] } := by
  have hb : ¬ (c.body = "" ∨ jsTrim c.body = "") := by
    rintro (h | h)
    · exact hbody (by rw [h]; rfl)
    · exact hbody h
  have h1 : ¬ (s.maxLength < c.characterCount) := Nat.not_lt.mpr hlen
  cases hch : c.hashtags with
  | none => simp [validateContent, hspec, h1, hb, hch]
  | some hs =>
      have h2 : ¬ (s.hashtagLimit < hs.length) := Nat.not_lt.mpr (hhash hs hch)
      simp [validateContent, hspec, h1, h2, hb, hch]

/-- Claim C3, witness: in-limit twitter content with a non-empty body is
accepted. -/
theorem validateContent_ok_witness :
    validateContent
      { body := "Hello world", hashtags := some [Json.str "a"],
        platform := "twitter", characterCount := 12 } =
      { isValid := true, issues := [] } :=
  validateContent_ok _
    ⟨280, 240, 3, "Be concise, use threads for longer content, include relevant hashtags"⟩
    (by rfl) (by decide)
    (by intro hs h; cases h; decide)
    (by decide)

/-- Claim C3, counterexample: content for a platform in the table, within
the character and hashtag limits, is still rejected when its body is
empty: validateContent also checks body non-emptiness, which the claim
omits. -/
theorem validateContent_counterexample :
    (let c : GeneratedContent :=
      { body := "", hashtags := some [], platform := "instagram", characterCount := 0 }
     (PLATFORM_SPECS "instagram").isSome = true ∧
     c.characterCount ≤ 2200 ∧
     (∀ hs, c.hashtags = some hs → hs.length ≤ 30) ∧
     (validateContent c).isValid = false ∧
     (validateContent c).issues = ["Content body is empty"]) := by
  refine ⟨by rfl, by decide, ?_, by rfl, by rfl⟩
  intro hs h
  cases h
  decide

/-- Claim C5, amended: a request whose platform key is outside the spec
table makes generateContent fail explicitly (it never defaults to some
other platform), but the failure is a raw TypeError from dereferencing
the undefined spec row while the prompt is built, before the try block;
no distinguished configuration-error failure exists in the source. -/
theorem generateContent_unknownPlatform (request : ContentGenerationRequest)
    (llm : LlmOutcome) (h : PLATFORM_SPECS request.platform = none) :
    generateContent request llm =
      .error (.typeError "Cannot read properties of undefined") ∧
    ∀ e, generateContent request llm = .error e → e.isConfigurationError = false := by
  have hg : generateContent request llm =
      .error (.typeError "Cannot read properties of undefined") := by
    unfold generateContent
    rw [h]
  refine ⟨hg, ?_⟩
  intro e he
  rw [hg] at he
  injection he with h2
  rw [← h2]
  rfl

/-- Claim C5, witness: an unsupported platform string fails with the
TypeError. -/
theorem generateContent_unknownPlatform_witness :
    generateContent { topic := "t", platform := "vine" } (.replies "y") =
      .error (.typeError "Cannot read properties of undefined") :=
  (generateContent_unknownPlatform _ _ (by rfl)).1

/-- Claim C5, counterexample: on an unknown platform the failure that
escapes generateContent is a TypeError, not the distinguished
configuration error the claim requires. -/
theorem generateContent_unknownPlatform_counterexample :
    generateContent { topic := "t", platform := "myspace" } (.replies "x") =
      .error (.typeError "Cannot read properties of undefined") ∧
    (JsError.typeError "Cannot read properties of undefined").isConfigurationError
      = false ∧
    (PLATFORM_SPECS "myspace").isSome = false := by
  exact ⟨rfl, rfl, rfl⟩

theorem runScrapeSteps_closes (env : ScrapeEnv) (st : BrowserState)
    (steps : List ScrapeStep) :
    ((runScrapeSteps env st steps).2).browserOpen = false := by
  induction steps with
  | nil => rfl
  | cons s rest ih =>
      unfold runScrapeSteps
      cases h : env.stepFails s with
      | some m => rfl
      | none => exact ih

/-- Claim C6: scrapeWebsite releases the browser on every exit path: for
every url and every environment (any step may throw, with any page
data), the final browser state is closed, whether the result is a
scraped site or a wrapped scrape error. -/
theorem scrapeWebsite_releasesBrowser (url : String) (env : ScrapeEnv) :
    ((scrapeWebsite url env).2).browserOpen = false := by
  unfold scrapeWebsite
  cases h : env.launchFails with
  | some m => rfl
  | none => exact runScrapeSteps_closes env _ _

/-- Claim C8, counterexample: a broker-backed job whose broker state is
waiting resolves to the status string waiting, which is outside the
claimed five-value set (the claim says pending; the source type and the
broker say waiting). -/
theorem getJobStatus_waiting_counterexample :
    (getJobStatus "content-generation" "42"
      { redisAvailable := true, queueLoaded := true,
        getJob := .ok (some { state := "waiting" }) }).status = "waiting" ∧
    ("waiting" : String) ∉
      (["pending", "active", "completed", "failed", "unknown"] : List String) := by
  exact ⟨rfl, by decide⟩

/-- Claim C8, amended: provided the broker reports one of its own queue
states (completed, failed, active, waiting), the status returned by
getJobStatus is one of exactly completed, failed, active, waiting or
unknown — waiting taking the place the claim gives to pending — and a
locally tagged direct- jobId always resolves to completed.  The proviso
is needed because the source passes the broker state through an
unchecked cast. -/
theorem getJobStatus_status_set (queueName jobId : String) (env : StatusEnv)
    (hstate : match env.getJob with
      | .ok (some job) =>
          job.state ∈ (["completed", "failed", "active", "waiting"] : List String)
      | _ => True) :
    (getJobStatus queueName jobId env).status ∈
      (["completed", "failed", "active", "waiting", "unknown"] : List String) ∧
    (jsStartsWith jobId "direct-" = true →
      (getJobStatus queueName jobId env).status = "completed") := by
  constructor
  · cases hd : jsStartsWith jobId "direct-" with
    | true => simp [getJobStatus, hd]
    | false =>
        cases hr : (!env.redisAvailable || !env.queueLoaded) with
        | true => simp [getJobStatus, hd, hr]
        | false =>
            cases hj : env.getJob with
            | error m => simp [getJobStatus, hd, hr, hj]
            | ok o =>
                cases o with
                | none => simp [getJobStatus, hd, hr, hj]
                | some job =>
                    rw [hj] at hstate
                    simp only [List.mem_cons, List.mem_singleton] at hstate
                    simp only [getJobStatus, hd, hr, hj, Bool.false_eq_true, if_false,
                      List.mem_cons, List.mem_singleton]
                    tauto
  · intro hd
    simp [getJobStatus, hd]

/-- Claim C8, witness: a direct- jobId resolves to completed. -/
theorem getJobStatus_status_set_witness :
    (getJobStatus "content-generation" "direct-99"
      { redisAvailable := false, queueLoaded := false, getJob := .ok none }).status
      = "completed" :=
  (getJobStatus_status_set "content-generation" "direct-99" _ (by trivial)).2 (by rfl)

/-- Claim C10: getJobStatus is total by construction (it returns a status
record, never a thrown error), and it maps an unavailable broker, a
throwing broker call and an unknown jobId each to status unknown with
an error message rather than propagating an exception. -/
theorem getJobStatus_total (queueName jobId : String) (env : StatusEnv)
    (hnd : jsStartsWith jobId "direct-" = false) :
    ((env.redisAvailable = false ∨ env.queueLoaded = false) →
      getJobStatus queueName jobId env =
        { status := "unknown", result := none, error := some "Redis not available" }) ∧
    (∀ msg, env.redisAvailable = true → env.queueLoaded = true →
      env.getJob = .error msg →
      getJobStatus queueName jobId env =
        { status := "unknown", result := none, error := some msg }) ∧
    (env.redisAvailable = true → env.queueLoaded = true →
      env.getJob = .ok none →
      getJobStatus queueName jobId env =
        { status := "unknown", result := none, error := some "Job not found" }) := by
  refine ⟨?_, ?_, ?_⟩
  · rintro (h | h) <;> simp [getJobStatus, hnd, h]
  · intro msg h1 h2 h3
    simp [getJobStatus, hnd, h1, h2, h3]
  · intro h1 h2 h3
    simp [getJobStatus, hnd, h1, h2, h3]

/-- Claim C10, witness: with no broker configured a broker-style jobId
resolves to unknown with an error message. -/
theorem getJobStatus_total_witness :
    getJobStatus "niche-analysis" "job-5"
      { redisAvailable := false, queueLoaded := false, getJob := .ok none } =
      { status := "unknown", result := none, error := some "Redis not available" } :=
  (getJobStatus_total "niche-analysis" "job-5" _ (by rfl)).1 (Or.inl rfl)

/-- Claim C7: when includeImage is set and the image collaborator is
unconfigured or its call fails, generateContentWithImage still returns
the generated content, with imageUrl null and the image prompt
recorded; the image failure never fails the pipeline. -/
theorem generateContentWithImage_imageFailureSwallowed
    (request : ContentGenerationRequest) (llm : LlmOutcome) (img : ImageEnv)
    (content : GeneratedContent)
    (hinc : request.includeImage = some true)
    (hfail : img.openaiKeyConfigured = false ∨ ∃ m, img.outcome = Except.error m)
    (hgen : generateContent request llm = .ok content) :
    generateContentWithImage request llm img =
      .ok { content with imageUrl := none,
                         imagePrompt := some (contentImagePrompt request) } := by
  have himg : ∀ p s, generateImage p s img = none := by
    intro p s
    unfold generateImage
    rcases hfail with h | ⟨m, h⟩
    · simp [h]
    · cases hk : img.openaiKeyConfigured <;> simp [h, hk]
  unfold generateContentWithImage
  rw [hgen]
  simp only [Bind.bind, Except.bind, hinc, Option.getD_some, if_true]
  rw [himg]
  rfl

/-- Claim C7, witness: with the image key unconfigured, a successful text
generation run returns content with a null imageUrl. -/
theorem generateContentWithImage_imageFailureSwallowed_witness :
    generateContentWithImage
      { topic := "solar", platform := "twitter", includeImage := some true }
      (.replies "\x7b\"body\":\"go solar\",\"hashtags\":[\"sun\"]\x7d")
      { openaiKeyConfigured := false, outcome := .ok none } =
      .ok { body := "go solar", hashtags := some [Json.str "sun"], imageUrl := none,
            imagePrompt := some "solar", platform := "twitter", characterCount := 11,
            estimatedReadTime := some 1 } :=
  generateContentWithImage_imageFailureSwallowed _ _ _ _ rfl (Or.inl rfl) (by rfl)

/-- Claim C9: a model reply that parses as JSON but lacks the body field
or the hashtags field still succeeds: the resolved body defaults to the
empty string when the field is missing, the resolved hashtags default
to the empty list when that field is missing, and the character count
and read time are computed from the resolved values. -/
theorem generateContent_missingFieldsDefault
    (request : ContentGenerationRequest) (llm : LlmOutcome) (content : String)
    (v : Json) (bodyF hashF : Option Json) (bodyStr : String) (hashList : List Json)
    (hspec : (PLATFORM_SPECS request.platform).isSome = true)
    (hll : llm = .replies content) (hne : ¬ content = "")
    (hp : parseModelResponse content = some v)
    (hbf : jsGetField v "body" = .ok bodyF)
    (hhf : jsGetField v "hashtags" = .ok hashF)
    (hbr : resolveStrField bodyF = .ok bodyStr)
    (hhr : resolveArrField hashF = .ok hashList)
    (hmiss : bodyF = none ∨ hashF = none) :
    generateContent request llm =
      .ok { body := bodyStr, hashtags := some hashList, imageUrl := none,
            platform := request.platform,
            characterCount := bodyStr.length + (jsListJoin " " hashList).length,
            estimatedReadTime := some ((bodyStr.data.count ' ' + 1 + 199) / 200) } ∧
    (bodyF = none → bodyStr = "") ∧
    (hashF = none → hashList = []) := by
  obtain ⟨specs, hs⟩ := Option.isSome_iff_exists.mp hspec
  subst hll
  refine ⟨?_, ?_, ?_⟩
  · have hbuild : buildGenerated request.platform specs v =
        .ok { body := bodyStr, hashtags := some hashList, imageUrl := none,
              platform := request.platform,
              characterCount := bodyStr.length + (jsListJoin " " hashList).length,
              estimatedReadTime := some ((bodyStr.data.count ' ' + 1 + 199) / 200) } := by
      unfold buildGenerated
      simp only [Bind.bind, Except.bind, hbf, hhf, hhr, hbr]
      rfl
    unfold generateContent
    simp only [hs]
    simp only [if_neg hne]
    simp only [hp, hbuild]
  · intro h
    rw [h] at hbr
    injection hbr with h2
    exact h2.symm
  · intro h
    rw [h] at hhr
    injection hhr with h2
    exact h2.symm

/-- Claim C9, witness: a reply that is a JSON object with neither field
yields empty body, empty hashtags and zero character count. -/
theorem generateContent_missingFieldsDefault_witness :
    generateContent { topic := "t", platform := "linkedin" }
      (.replies "\x7b\"note\":1\x7d") =
      .ok { body := "", hashtags := some [], imageUrl := none, platform := "linkedin",
            characterCount := 0, estimatedReadTime := some 1 } :=
  (generateContent_missingFieldsDefault
    { topic := "t", platform := "linkedin" } _ "\x7b\"note\":1\x7d"
    (Json.obj [("note", Json.num 1)]) none none "" []
    (by rfl) rfl (by decide) (by rfl) (by rfl) (by rfl) (by rfl) (by rfl)
    (Or.inl rfl)).1

theorem buildGenerated_platform (p : String) (specs : PlatformSpec) (parsed : Json)
    (g : GeneratedContent) (h : buildGenerated p specs parsed = .ok g) :
    g.platform = p := by
  unfold buildGenerated at h
  simp only [Bind.bind, Except.bind] at h
  cases h1 : jsGetField parsed "body" with
  | error e => simp [h1] at h
  | ok bodyF =>
      simp only [h1] at h
      cases h2 : jsGetField parsed "hashtags" with
      | error e => simp [h2] at h
      | ok hashF =>
          simp only [h2] at h
          cases h3 : resolveArrField hashF with
          | error e => simp [h3] at h
          | ok hts =>
              simp only [h3] at h
              cases h4 : resolveStrField bodyF with
              | error e => simp [h4] at h
              | ok body =>
                  simp only [h4, pure, Except.pure, Except.ok.injEq] at h
                  rw [← h]

theorem generateContent_platform (request : ContentGenerationRequest)
    (llm : LlmOutcome) (g : GeneratedContent)
    (h : generateContent request llm = .ok g) : g.platform = request.platform := by
  unfold generateContent at h
  cases hs : PLATFORM_SPECS request.platform with
  | none => simp [hs] at h
  | some specs =>
      simp only [hs] at h
      cases llm with
      | throws m => simp at h
      | replies content =>
          simp only [] at h
          by_cases hc : content = ""
          · simp [hc] at h
          · rw [if_neg hc] at h
            cases hp : parseModelResponse content with
            | none => simp [hp] at h
            | some parsed =>
                simp only [hp] at h
                cases hb : buildGenerated request.platform specs parsed with
                | error e => simp [hb] at h
                | ok g2 =>
                    simp only [hb, Except.ok.injEq] at h
                    rw [← h]
                    exact buildGenerated_platform _ _ _ _ hb

theorem generateContentWithImage_platform (request : ContentGenerationRequest)
    (llm : LlmOutcome) (img : ImageEnv) (g : GeneratedContent)
    (h : generateContentWithImage request llm img = .ok g) :
    g.platform = request.platform := by
  unfold generateContentWithImage at h
  simp only [Bind.bind, Except.bind] at h
  cases hg : generateContent request llm with
  | error e => rw [hg] at h; simp at h
  | ok c =>
      rw [hg] at h
      have hc := generateContent_platform _ _ _ hg
      cases hi : request.includeImage.getD false with
      | true =>
          simp only [hi, if_true, ite_true, pure, Except.pure] at h
          injection h with h2
          rw [← h2]
          exact hc
      | false =>
          simp only [hi, if_false, ite_false, pure, Except.pure] at h
          injection h with h2
          rw [← h2]
          exact hc

/-- Claim C1: whenever no durable broker is usable (Redis unconfigured,
BullMQ missing, or the enqueue call throwing) and the pipeline
succeeds, addContentGenerationJob runs the pipeline synchronously and
returns, in the one call, a locally tagged jobId together with the
immediate result, whose platform equals the platform of the request. -/
theorem addContentGenerationJob_direct
    (data : ContentGenerationRequest) (env : JobQueueEnv) (llm : LlmOutcome)
    (img : ImageEnv) (content : GeneratedContent) (m : String)
    (hmode : env.redisAvailable = false ∨ env.queueLoaded = false ∨
      env.enqueue = Except.error m)
    (hgen : generateContentWithImage data llm img = .ok content) :
    addContentGenerationJob data env llm img =
      .ok { jobId := "direct-" ++ toString env.now, result := some content } ∧
    jsStartsWith ("direct-" ++ toString env.now) "direct-" = true ∧
    content.platform = data.platform := by
  refine ⟨?_, jsStartsWith_append "direct-" (toString env.now),
    generateContentWithImage_platform _ _ _ _ hgen⟩
  unfold addContentGenerationJob executeContentGeneration
  rcases hmode with h | h | h
  · simp [h, hgen]
  · simp [h, hgen]
  · cases hr : env.redisAvailable <;> cases hq : env.queueLoaded <;>
      simp [h, hgen, hr, hq]

/-- Claim C1, witness: with Redis unconfigured, submission returns the
direct-tagged jobId and the generated facebook content in one call. -/
theorem addContentGenerationJob_direct_witness :
    addContentGenerationJob { topic := "t", platform := "facebook" }
      { redisAvailable := false, queueLoaded := true, now := 7, enqueue := .ok none }
      (.replies "\x7b\"body\":\"hello\",\"hashtags\":[]\x7d")
      { openaiKeyConfigured := false, outcome := .ok none } =
      .ok { jobId := "direct-" ++ toString (7 : Nat),
            result := some { body := "hello", hashtags := some [], imageUrl := none,
                             platform := "facebook", characterCount := 5,
                             estimatedReadTime := some 1 } } :=
  (addContentGenerationJob_direct _ _ _ _ _ "" (Or.inl rfl) (by rfl)).1

theorem dropWhileAppendAll {l1 l2 : List Char} {p : Char → Bool}
    (h : ∀ c ∈ l1, p c = true) : (l1 ++ l2).dropWhile p = l2.dropWhile p := by
  induction l1 with
  | nil => rfl
  | cons a t ih =>
      rw [List.cons_append, List.dropWhile_cons, h a (List.mem_cons_self a t)]
      exact ih (fun c hc => h c (List.mem_cons_of_mem a hc))

theorem extractSpan_of_wrapped (p q mid : List Char)
    (hp : ∀ c ∈ p, c ≠ '{') (hq : ∀ c ∈ q, c ≠ '}') :
    extractSpan (p ++ ('{' :: (mid ++ ['}'])) ++ q) = some ('{' :: (mid ++ ['}'])) := by
  unfold extractSpan
  have hp2 : ∀ c ∈ p, (c != '{') = true := fun c hc => by
    simp [bne_iff_ne, hp c hc]
  have hq2 : ∀ c ∈ q.reverse, (c != '}') = true := fun c hc => by
    simp [bne_iff_ne, hq c (List.mem_reverse.mp hc)]
  have e1 : (p ++ ('{' :: (mid ++ ['}'])) ++ q).dropWhile (fun c => c != '{')
      = ('{' :: (mid ++ ['}'])) ++ q := by
    rw [List.append_assoc]
    rw [dropWhileAppendAll hp2]
    rw [List.cons_append, List.dropWhile_cons]
    simp
  have e2 : ((('{' :: (mid ++ ['}'])) ++ q).reverse).dropWhile (fun c => c != '}')
      = ('}' :: mid.reverse) ++ ['{'] := by
    rw [List.reverse_append, List.reverse_cons, List.reverse_append]
    rw [dropWhileAppendAll hq2]
    simp [List.dropWhile_cons]
  simp only [e1, e2]
  have e3 : (('}' :: mid.reverse) ++ ['{']).reverse = '{' :: (mid ++ ['}']) := by
    simp
  rw [e3]
  have hlen : 2 ≤ ('{' :: (mid ++ ['}'])).length := by
    simp
  rw [if_pos hlen]

/-- Claim C4, amended: the two-attempt parsing step yields the same
parsed object on a string that parses as a JSON object (brace-first,
brace-last) and on that string wrapped in prose, provided the prose
prefix contains no opening brace, the prose suffix contains no closing
brace, and the wrapped string does not itself parse directly as JSON;
the greedy brace match of attempt 2 spans from the first opening brace
to the last closing brace of the whole text, so these provisos are
necessary. -/
theorem parseModelResponse_wrapped (p s q : String) (v : Json) (mid : List Char)
    (hmid : s.data = '{' :: (mid ++ ['}']))
    (hp : ∀ c ∈ p.data, c ≠ '{')
    (hq : ∀ c ∈ q.data, c ≠ '}')
    (hv : parseJson s = some v)
    (hwrap : parseJson (p ++ s ++ q) = none) :
    parseModelResponse s = some v ∧ parseModelResponse (p ++ s ++ q) = some v := by
  constructor
  · unfold parseModelResponse
    rw [hv]
  · unfold parseModelResponse
    rw [hwrap]
    have hdata : (p ++ s ++ q).data = p.data ++ s.data ++ q.data := by
      rw [strDataAppend, strDataAppend]
    rw [hdata, hmid]
    rw [extractSpan_of_wrapped p.data q.data mid hp hq]
    simp only []
    rw [← hmid, strMkData, hv]

/-- Claim C4, witness: a JSON object wrapped in brace-free prose parses
to the same object as the raw string. -/
theorem parseModelResponse_wrapped_witness :
    parseModelResponse "Here is the JSON: \x7b\"a\":1\x7d thanks" =
      some (Json.obj [("a", Json.num 1)]) :=
  (parseModelResponse_wrapped "Here is the JSON: " "\x7b\"a\":1\x7d" " thanks"
    (Json.obj [("a", Json.num 1)]) ("\"a\":1".data)
    (by rfl) (by decide) (by decide) (by rfl) (by rfl)).2

/-- Claim C4, counterexample: wrapping the same JSON object in prose
whose suffix contains a closing brace makes both attempts fail — the
greedy brace match runs to the last closing brace of the text, not to
the end of the balanced span — so the raw string parses but the wrapped
string does not, contradicting the claim that both always succeed with
identical results. -/
theorem parseModelResponse_wrapped_counterexample :
    parseModelResponse "\x7b\"a\":1\x7d" = some (Json.obj [("a", Json.num 1)]) ∧
    parseModelResponse "Sure: \x7b\"a\":1\x7d :-\x7d" = none := by
  exact ⟨rfl, rfl⟩
